import Mathlib

/-
Verification of the debug-session core of cdp-gdb-bridge
(src/core/DebugSession.ts).  The TypeScript source is embedded shallowly:

* JavaScript numbers that matter here (breakpoint ids, parsed line
  numbers) are modelled by `JsNum`, which carries `NaN` and the two
  infinities, because `Math.max.apply(null, [])` is `-Infinity` and
  `Number(s)` is `NaN` for non-numeric `s`.
* Asynchronous methods become pure functions returning, besides their
  result, the updated state and the ordered list of observable effects
  (console output, protocol-gateway requests, event-sink signals).
  Gateway *responses* (the breakpoint id returned by `setBreakpoint`,
  the scope-chain walk of `createWasmValueStore`, the memory bytes
  returned by `evaluateOnCallFrame`) are supplied as parameters, since
  they are produced by the external browser environment.
* The per-module debug-information handle (`WebAssemblyFile` /
  the dwarf crate, external to this file's source) is modelled by
  abstract query functions stored in the `WebAssemblyFile` structure,
  matching the capability surface the core consumes.
* A JavaScript `TypeError` caused by indexing past the end of
  `stackFrames` is modelled by the `Outcome.fault` constructor.
-/

namespace CdpBridge

/-- JavaScript double values as far as this code observes them:
`NaN`, the infinities, and (integral) finite values.  Breakpoint ids and
`Number(...)`-parsed line numbers live here. -/
inductive JsNum where
  | nan
  | negInf
  | posInf
  | num (n : Int)
deriving DecidableEq, Repr

/-- JavaScript `x + 1` on a `JsNum` (only increment is ever used by the
source, in the breakpoint id allocation). -/
def JsNum.addOne : JsNum → JsNum
  | .nan => .nan
  | .negInf => .negInf
  | .posInf => .posInf
  | .num n => .num (n + 1)

/-- JavaScript `Math.max` on two arguments: any `NaN` poisons the
result, `-Infinity` is the identity. -/
def jsMax2 : JsNum → JsNum → JsNum
  | .nan, _ => .nan
  | _, .nan => .nan
  | .negInf, b => b
  | a, .negInf => a
  | .posInf, _ => .posInf
  | _, .posInf => .posInf
  | .num a, .num b => .num (max a b)

/-- JavaScript `Math.max.apply(null, l)`: fold of `jsMax2` starting from
`-Infinity` (so the max of the empty list is `-Infinity`). -/
def jsMaxList (l : List JsNum) : JsNum :=
  l.foldl jsMax2 .negInf

/-- JavaScript `==` between two numbers: `NaN` is equal to nothing
(itself included). -/
def jsEq : JsNum → JsNum → Bool
  | .nan, _ => false
  | _, .nan => false
  | .negInf, .negInf => true
  | .posInf, .posInf => true
  | .num a, .num b => a == b
  | _, _ => false

/-- JavaScript `Number(s)` restricted to the inputs this code meets:
the empty string is `0`, an (optionally signed) integer literal is its
value, anything else is `NaN`.  (Float/hex/whitespace forms are not
exercised by the claims.) -/
def jsNumber (s : String) : JsNum :=
  if s = "" then .num 0
  else match s.toInt? with
    | some n => .num n
    | none => .nan

/-- `String.prototype.split` with a one-character separator, on the
underlying character list: `split` of the empty string is `[[]]`, and a
separator at either end yields an empty group there. -/
def splitCharList (sep : Char) : List Char → List (List Char)
  | [] => [[]]
  | c :: rest =>
    let r := splitCharList sep rest
    if c = sep then [] :: r
    else
      match r with
      | g :: gs => (c :: g) :: gs
      | [] => [[c]]

/-- JavaScript `s.split(sep)` for a one-character separator. -/
def jsSplit (sep : Char) (s : String) : List String :=
  (splitCharList sep s.data).map (fun l => String.mk l)

/-- `Variable` (DebugSession.ts line 12): name/type metadata only. -/
structure Variable where
  name : String
  type : String
deriving DecidableEq, Repr

/-- `IBreakPoint` (line 17): the user-visible breakpoint result.  All
numeric fields are JS numbers (ids can be `-Infinity`, lines `NaN`). -/
structure IBreakPoint where
  id : Option JsNum
  line : Option JsNum
  column : Option JsNum
  verified : Bool
deriving DecidableEq, Repr

/-- `BreakPointMapping & FileLocation` = `RuntimeBreakPoint` (line 29):
one record of the breakpoint registry. -/
structure RuntimeBreakPoint where
  id : JsNum
  rawId : String
  file : String
  line : JsNum
deriving DecidableEq, Repr

/-- `Protocol.Debugger.Location`: script handle plus line/column.  The
protocol marks `columnNumber` optional, but every frame this code
builds carries one, so it is required here. -/
structure Location where
  scriptId : String
  lineNumber : Nat
  columnNumber : Nat
deriving DecidableEq, Repr

/-- A source location produced by the debug-information handle
(the dwarf crate's `.file()` / `.line()` accessors). -/
structure SourceLocation where
  file : String
  line : Nat
deriving DecidableEq, Repr

/-- The `{scriptId, line, column}` record built by
`DebugSession.findAddressFromFileLocation` (line 88): `line` is always
`0`, `column` carries the byte address. -/
structure WasmLocation where
  scriptId : String
  line : Nat
  column : Nat
deriving DecidableEq, Repr

/-- One ordered collection of wasm values (`WasmValueVector` from the
dwarf crate); its contents are never inspected by this code. -/
structure WasmValueVector where
  vals : List Int
deriving DecidableEq, Repr

/-- `WebAssemblyDebugState` (line 45): the per-frame variable store.
The source's field `stacks` is renamed `stackVals` because `stacks` is
a reserved token in this Lean environment. -/
structure WebAssemblyDebugState where
  stackVals : WasmValueVector
  locals : WasmValueVector
  globals : WasmValueVector
deriving DecidableEq, Repr

/-- The resolved-variable descriptor returned by the dwarf crate's
`get_variable_info`: a target address and byte size, plus `print`,
which models `set_memory_slice(bytes)` followed by `print()` as one
function from the fetched bytes to the display string. -/
structure WasmVariableInfo where
  address : Nat
  byte_size : Nat
  print : List Nat → String

/-- `Protocol.Debugger.CallFrame` as consumed here: the frame id used
for memory evaluation, the function name, the raw protocol location and
the script URL.  The scope chain is consumed only inside
`createWasmValueStore`, whose gateway round-trips are modelled by an
environment parameter, so it is not carried here. -/
structure CallFrame where
  callFrameId : String
  functionName : String
  location : Location
  url : String
deriving DecidableEq, Repr

/-- `StackFrameFunction & FileLocation` = `IRuntimeStackFrame`
(line 43): the display-level stack entry. -/
structure IRuntimeStackFrame where
  index : Nat
  name : String
  instruction : Nat
  file : String
  line : Nat
deriving DecidableEq, Repr

/-- `RuntimeStackFrame` (line 51): protocol frame, display entry, and
the lazily-built variable store. -/
structure RuntimeStackFrame where
  frame : CallFrame
  stack : IRuntimeStackFrame
  state : Option WebAssemblyDebugState
deriving DecidableEq, Repr

/-- `WebAssemblyFile` (imported from Source.ts): a script handle plus
the debug-information handle.  The handle's four queries are the
external Debug-Info Registry capability and are kept abstract as
function-valued fields. -/
structure WebAssemblyFile where
  scriptID : String
  findFileFromLocation : Location → Option SourceLocation
  findAddressFromFileLocation : String → JsNum → Option Nat
  variable_name_list : Nat → Option (List Variable)
  get_variable_info : String → WebAssemblyDebugState → Nat → Option WasmVariableInfo

/-- `DebugSession` (line 57): the module registry. -/
structure DebugSession where
  sources : List WebAssemblyFile

/-- `DebugSession.reset` (line 65): frees every module and clears the
list (the `free()` calls release external wasm memory and have no
observable effect inside this model). -/
def DebugSession.reset (_s : DebugSession) : DebugSession :=
  { sources := [] }

/-- `DebugSession.loadedWebAssembly` (line 73): push. -/
def DebugSession.loadedWebAssembly (s : DebugSession) (wasm : WebAssemblyFile) : DebugSession :=
  { sources := s.sources ++ [wasm] }

/-- `DebugSession.findFileFromLocation` (line 77): the first module
whose `scriptID` matches the location's, queried for the source
location; `undefined` (here `none`) when no module matches, through the
optional-chaining `[0]?.`. -/
def DebugSession.findFileFromLocation (s : DebugSession) (loc : Location) : Option SourceLocation :=
  match s.sources.filter (fun x => x.scriptID == loc.scriptId) with
  | [] => none
  | x :: _ => x.findFileFromLocation loc

/-- `DebugSession.findAddressFromFileLocation` (line 83): scans modules
in order; the first one yielding an address wins, wrapped as
`{scriptId, line := 0, column := address}`. -/
def DebugSession.findAddressFromFileLocation (s : DebugSession) (file : String) (line : JsNum) :
    Option WasmLocation :=
  s.sources.findSome? (fun x =>
    (x.findAddressFromFileLocation file line).map
      (fun a => { scriptId := x.scriptID, line := 0, column := a }))

/-- `DebugSession.getVariablelistFromAddress` (line 99): first module
whose `variable_name_list` is defined and non-empty. -/
def DebugSession.getVariablelistFromAddress (s : DebugSession) (address : Nat) :
    Option (List Variable) :=
  s.sources.findSome? (fun x =>
    match x.variable_name_list address with
    | some list => if list.length > 0 then some list else none
    | none => none)

/-- `DebugSession.getVariableValue` (line 111): first module whose
`get_variable_info` resolves the expression. -/
def DebugSession.getVariableValue (s : DebugSession) (expr : String) (address : Nat)
    (state : WebAssemblyDebugState) : Option WasmVariableInfo :=
  s.sources.findSome? (fun x => x.get_variable_info expr state address)

/-- One observable interaction of the session with its environment:
console output, a protocol-gateway request, the event-sink "stopped"
signal, or the `showLine` console window (whose file-system read is not
modelled further).  Gateway requests carry the arguments the source
passes. -/
inductive Effect where
  | consoleWarn (msg : String)
  | consoleLog (msg : String)
  | gwStepOver
  | gwStepInto
  | gwStepOut
  | gwResume
  | gwSetBreakpoint (scriptId : Option String) (lineNumber : Option Nat) (columnNumber : Option Nat)
  | gwRemoveBreakpoint (rawId : String)
  | gwEvaluateOnCallFrame (callFrameId : String) (address : Nat) (size : Nat)
  | gwNavigate (url : String)
  | showLineOutput (file : String) (line : Nat)
  | sendStoppedEvent (reason : String) (threadId : Nat)
deriving DecidableEq, Repr

/-- Whether an effect is a request to the Protocol Gateway (console
output and the event-sink signal are not). -/
def Effect.isGateway : Effect → Bool
  | .consoleWarn _ => false
  | .consoleLog _ => false
  | .showLineOutput _ _ => false
  | .sendStoppedEvent _ _ => false
  | _ => true

/-- Result of a command that can hit a JavaScript `TypeError` (indexing
`stackFrames` out of range yields `undefined`, whose dereference
throws).  `fault` marks exactly those executions. -/
inductive Outcome (α : Type) where
  | ok (a : α)
  | fault
deriving DecidableEq, Repr

/-- The warning every `NormalSessionState` method prints (line 157). -/
def notPausedWarning : Effect := .consoleWarn "Debugger not paused!"

namespace NormalSessionState

/-- `NormalSessionState.stepOver` (line 156). -/
def stepOver : List Effect := [notPausedWarning]

/-- `NormalSessionState.stepIn` (line 159). -/
def stepIn : List Effect := [notPausedWarning]

/-- `NormalSessionState.stepOut` (line 162). -/
def stepOut : List Effect := [notPausedWarning]

/-- `NormalSessionState.continue` (line 165); `continue` is a Lean
keyword, hence the name. -/
def continueCmd : List Effect := [notPausedWarning]

/-- `NormalSessionState.getStackFrames` (line 168): warns and returns
the empty list. -/
def getStackFrames : List IRuntimeStackFrame × List Effect := ([], [notPausedWarning])

/-- `NormalSessionState.showLine` (line 172). -/
def showLine : List Effect := [notPausedWarning]

/-- `NormalSessionState.listVariable` (line 175): warns and returns the
empty list. -/
def listVariable : List Variable × List Effect := ([], [notPausedWarning])

/-- `NormalSessionState.dumpVariable` (line 179): warns and returns
`undefined`. -/
def dumpVariable : Option String × List Effect := (none, [notPausedWarning])

/-- `NormalSessionState.setFocusedFrame` (line 183): ignores the index
and warns. -/
def setFocusedFrame : List Effect := [notPausedWarning]

end NormalSessionState

/-- `PausedSessionState`'s own data (line 192): the frame list built at
pause time and the focused-frame cursor (`selectedFrameIndex`, default
0).  The `debugger`/`runtime` handles are the gateway (effects) and
`debugSession` aliases the manager's session, so the session is passed
at each call instead of being stored. -/
structure PausedState where
  stackFrames : List RuntimeStackFrame
  selectedFrameIndex : Nat
deriving DecidableEq, Repr

namespace PausedState

/-- `PausedSessionState.stepOver` (line 207): one gateway step-over. -/
def stepOver (ps : PausedState) : PausedState × List Effect :=
  (ps, [.gwStepOver])

/-- `PausedSessionState.stepIn` (line 211): the source also issues the
gateway's step-over here, not step-into. -/
def stepIn (ps : PausedState) : PausedState × List Effect :=
  (ps, [.gwStepOver])

/-- `PausedSessionState.stepOut` (line 215). -/
def stepOut (ps : PausedState) : PausedState × List Effect :=
  (ps, [.gwStepOut])

/-- `PausedSessionState.continue` (line 219): gateway resume. -/
def continueCmd (ps : PausedState) : PausedState × List Effect :=
  (ps, [.gwResume])

/-- `PausedSessionState.getStackFrames` (line 223): the cached display
entries, no effects. -/
def getStackFrames (ps : PausedState) : List IRuntimeStackFrame × List Effect :=
  (ps.stackFrames.map (fun x => x.stack), [])

/-- `PausedSessionState.setFocusedFrame` (line 227): stores the index
unvalidated. -/
def setFocusedFrame (ps : PausedState) (index : Nat) : PausedState × List Effect :=
  ({ ps with selectedFrameIndex := index }, [])

/-- `PausedSessionState.showLine` (line 231): dereferences the focused
frame (faulting when out of range) and prints a window around its
line; the file-system interaction is summarised by one effect. -/
def showLine (ps : PausedState) : Outcome (List Effect) :=
  match ps.stackFrames[ps.selectedFrameIndex]? with
  | none => .fault
  | some frame => .ok [.showLineOutput frame.stack.file frame.stack.line]

/-- `PausedSessionState.listVariable` (line 247): variables at the
focused frame's instruction address; `not available.` and the empty
list when no module resolves the address.  (The source copies the
resolved vector element-wise into `{name, type}` records; the copy is
the identity here.) -/
def listVariable (ps : PausedState) (sess : DebugSession) : Outcome (List Variable × List Effect) :=
  match ps.stackFrames[ps.selectedFrameIndex]? with
  | none => .fault
  | some frame =>
    match sess.getVariablelistFromAddress frame.stack.instruction with
    | none => .ok ([], [.consoleLog "not available."])
    | some varlist => .ok (varlist, [])

/-- `PausedSessionState.dumpVariable` (line 271) together with
`evaluateMemory` (line 291) and `createWasmValueStore` (line 301):

* `buildStore` supplies, per protocol frame, the variable store the
  scope-chain walk produces plus its gateway effects (the walk is
  driven entirely by gateway responses);
* `memResp` is the gateway's response to the memory read.

The memory read targets `this.stackFrames[0].frame.callFrameId` —
frame 0, not the focused frame. -/
def dumpVariable (ps : PausedState) (sess : DebugSession) (expr : String)
    (buildStore : CallFrame → WebAssemblyDebugState × List Effect)
    (memResp : List Nat) : Outcome (Option String × PausedState × List Effect) :=
  match ps.stackFrames[ps.selectedFrameIndex]? with
  | none => .fault
  | some frame =>
    let built : WebAssemblyDebugState × List Effect × List RuntimeStackFrame :=
      match frame.state with
      | some st => (st, [], ps.stackFrames)
      | none =>
        let se := buildStore frame.frame
        (se.1, se.2, ps.stackFrames.set ps.selectedFrameIndex { frame with state := some se.1 })
    match sess.getVariableValue expr frame.stack.instruction built.1 with
    | none =>
      .ok (none, { stackFrames := built.2.2, selectedFrameIndex := ps.selectedFrameIndex },
           built.2.1 ++ [.consoleLog "not available."])
    | some vi =>
      match built.2.2 with
      | [] => .fault
      | f0 :: _ =>
        .ok (some (vi.print memResp),
             { stackFrames := built.2.2, selectedFrameIndex := ps.selectedFrameIndex },
             built.2.1 ++ [.gwEvaluateOnCallFrame f0.frame.callFrameId vi.address vi.byte_size])

end PausedState

/-- The session's operating mode (`sessionState` field, line 349):
`NormalSessionState` (running) or `PausedSessionState`. -/
inductive SessionState where
  | normal
  | paused (ps : PausedState)
deriving DecidableEq, Repr

/-- `DebugSessionManager` (line 338): module registry, breakpoint
registry and the active mode. -/
structure DebugSessionManager where
  session : DebugSession
  breakPoints : List RuntimeBreakPoint
  sessionState : SessionState

namespace DebugSessionManager

/-- `DebugSessionManager.stepOver` (line 366): dispatch to the active
mode. -/
def stepOver (m : DebugSessionManager) : DebugSessionManager × List Effect :=
  match m.sessionState with
  | .normal => (m, NormalSessionState.stepOver)
  | .paused ps =>
    let r := ps.stepOver
    ({ m with sessionState := .paused r.1 }, r.2)

/-- `DebugSessionManager.stepIn` (line 370): the source dispatches to
the active mode's `stepOver`, so the manager-level `stepIn` is the
step-over dispatch verbatim. -/
def stepIn (m : DebugSessionManager) : DebugSessionManager × List Effect :=
  match m.sessionState with
  | .normal => (m, NormalSessionState.stepOver)
  | .paused ps =>
    let r := ps.stepOver
    ({ m with sessionState := .paused r.1 }, r.2)

/-- `DebugSessionManager.stepOut` (line 374). -/
def stepOut (m : DebugSessionManager) : DebugSessionManager × List Effect :=
  match m.sessionState with
  | .normal => (m, NormalSessionState.stepOut)
  | .paused ps =>
    let r := ps.stepOut
    ({ m with sessionState := .paused r.1 }, r.2)

/-- `DebugSessionManager.continue` (line 378). -/
def continueCmd (m : DebugSessionManager) : DebugSessionManager × List Effect :=
  match m.sessionState with
  | .normal => (m, NormalSessionState.continueCmd)
  | .paused ps =>
    let r := ps.continueCmd
    ({ m with sessionState := .paused r.1 }, r.2)

/-- `DebugSessionManager.getStackFrames` (line 382). -/
def getStackFrames (m : DebugSessionManager) : List IRuntimeStackFrame × List Effect :=
  match m.sessionState with
  | .normal => NormalSessionState.getStackFrames
  | .paused ps => ps.getStackFrames

/-- `DebugSessionManager.setFocusedFrame` (line 386). -/
def setFocusedFrame (m : DebugSessionManager) (index : Nat) :
    DebugSessionManager × List Effect :=
  match m.sessionState with
  | .normal => (m, NormalSessionState.setFocusedFrame)
  | .paused ps =>
    let r := ps.setFocusedFrame index
    ({ m with sessionState := .paused r.1 }, r.2)

/-- `DebugSessionManager.showLine` (line 390). -/
def showLine (m : DebugSessionManager) : Outcome (List Effect) :=
  match m.sessionState with
  | .normal => .ok NormalSessionState.showLine
  | .paused ps => ps.showLine

/-- `DebugSessionManager.listVariable` (line 394): the paused
implementation reads the (shared, aliased) `session`. -/
def listVariable (m : DebugSessionManager) : Outcome (List Variable × List Effect) :=
  match m.sessionState with
  | .normal => .ok NormalSessionState.listVariable
  | .paused ps => ps.listVariable m.session

/-- `DebugSessionManager.dumpVariable` (line 398). -/
def dumpVariable (m : DebugSessionManager) (expr : String)
    (buildStore : CallFrame → WebAssemblyDebugState × List Effect)
    (memResp : List Nat) : Outcome (Option String × DebugSessionManager × List Effect) :=
  match m.sessionState with
  | .normal => .ok (NormalSessionState.dumpVariable.1, m, NormalSessionState.dumpVariable.2)
  | .paused ps =>
    match ps.dumpVariable m.session expr buildStore memResp with
    | .fault => .fault
    | .ok r => .ok (r.1, { m with sessionState := .paused r.2.1 }, r.2.2)

/-- `DebugSessionManager.setBreakPoint` (line 402).  `envRawId` is the
gateway's `bp.breakpointId` response.  A location without at least one
`:` returns `verified:false` untouched; otherwise the line is
`Number`-parsed (possibly `NaN`), the address resolution is attempted,
the gateway request is issued with the (possibly absent) resolved
fields, and the id is `Math.max` of the existing ids plus one
(`-Infinity` on an empty registry). -/
def setBreakPoint (m : DebugSessionManager) (location : String) (envRawId : String) :
    IBreakPoint × DebugSessionManager × List Effect :=
  match jsSplit ':' location with
  | debugfilename :: lineStr :: _ =>
    let debugline := jsNumber lineStr
    let wasmLocation := m.session.findAddressFromFileLocation debugfilename debugline
    let bpID := (jsMaxList (m.breakPoints.map (fun x => x.id))).addOne
    ({ id := some bpID, line := some debugline, column := none, verified := true },
     { m with breakPoints := m.breakPoints ++
         [{ id := bpID, rawId := envRawId, file := debugfilename, line := debugline }] },
     [.gwSetBreakpoint (wasmLocation.map (fun w => w.scriptId))
        (wasmLocation.map (fun w => w.line))
        (wasmLocation.map (fun w => w.column))])
  | _ => ({ id := none, line := none, column := none, verified := false }, m, [])

/-- `DebugSessionManager.removeBreakPoint` (line 433): one gateway
removal per matching record (JS `==` on ids), then the local registry
drops them; the requests are issued before the local update and their
responses are never consulted, so a gateway failure cannot roll the
local removal back. -/
def removeBreakPoint (m : DebugSessionManager) (id : JsNum) :
    DebugSessionManager × List Effect :=
  ({ m with breakPoints := m.breakPoints.filter (fun x => !(jsEq x.id id)) },
   (m.breakPoints.filter (fun x => jsEq x.id id)).map (fun x => .gwRemoveBreakpoint x.rawId))

/-- `DebugSessionManager.removeAllBreakPoints` (line 445): same, keyed
by file. -/
def removeAllBreakPoints (m : DebugSessionManager) (path : String) :
    DebugSessionManager × List Effect :=
  ({ m with breakPoints := m.breakPoints.filter (fun x => !(x.file == path)) },
   (m.breakPoints.filter (fun x => x.file == path)).map (fun x => .gwRemoveBreakpoint x.rawId))

/-- `DebugSessionManager.getBreakPointsList` (line 456): exact
`(file, line)` matches (JS `==` on the line), all `verified:true`;
empty on a malformed location. -/
def getBreakPointsList (m : DebugSessionManager) (location : String) : List IBreakPoint :=
  match jsSplit ':' location with
  | debugfilename :: lineStr :: _ =>
    let debugline := jsNumber lineStr
    (m.breakPoints.filter (fun x => x.file == debugfilename && jsEq x.line debugline)).map
      (fun x => { id := some x.id, line := some x.line, column := none, verified := true })
  | _ => []

/-- `DebugSessionManager.jumpToPage` (line 477). -/
def jumpToPage (m : DebugSessionManager) (url : String) :
    DebugSessionManager × List Effect :=
  (m, [.gwNavigate url])

/-- The body of the `map` in `onPaused` (line 502): display entry `i`
built from call frame `v`.  The `||` fallbacks are JavaScript truthy
selections: a resolved but *empty* file name and a resolved but *zero*
line number fall back exactly like an unresolved location. -/
def mkStackFrame (sess : DebugSession) (i : Nat) (v : CallFrame) : RuntimeStackFrame :=
  let dwarfLocation := sess.findFileFromLocation v.location
  { frame := v
    stack :=
      { index := i
        name := v.functionName
        instruction := v.location.columnNumber
        file := match dwarfLocation with
          | some dl => if dl.file = "" then v.url else dl.file
          | none => v.url
        line := match dwarfLocation with
          | some dl => if dl.line = 0 then v.location.lineNumber else dl.line
          | none => v.location.lineNumber }
    state := none }

/-- The indexed `map` of `onPaused` (line 502), one display entry per
call frame, in frame order. -/
def buildStackFrames (sess : DebugSession) (i : Nat) : List CallFrame → List RuntimeStackFrame
  | [] => []
  | v :: rest => mkStackFrame sess i v :: buildStackFrames sess (i + 1) rest

/-- The `paused` notification payload consumed by `onPaused`. -/
structure PausedEvent where
  callFrames : List CallFrame
deriving DecidableEq, Repr

/-- `DebugSessionManager.onPaused` (line 499): builds the frame list in
order, replaces the mode with `Paused` (focused index 0) and signals
the event sink with the dummy thread id 1. -/
def onPaused (m : DebugSessionManager) (e : PausedEvent) :
    DebugSessionManager × List Effect :=
  let ps : PausedState :=
    { stackFrames := buildStackFrames m.session 0 e.callFrames, selectedFrameIndex := 0 }
  ({ m with sessionState := .paused ps },
   [.consoleLog "Hit BreakPointMapping", .sendStoppedEvent "BreakPointMapping" 1])

/-- `DebugSessionManager.onResumed` (line 522): back to `Running`. -/
def onResumed (m : DebugSessionManager) : DebugSessionManager :=
  { m with sessionState := .normal }

/-- `DebugSessionManager.onLoad` (line 526): page navigation resets the
module registry — and nothing else: the mode (with any cached stack) is
left as it is. -/
def onLoad (m : DebugSessionManager) : DebugSessionManager × List Effect :=
  ({ m with session := m.session.reset }, [.consoleLog "Page navigated."])

/-- The `scriptParsed` notification payload consumed by
`onScriptLoaded`. -/
structure ScriptParsedEvent where
  scriptId : String
  url : String
  scriptLanguage : String
deriving DecidableEq, Repr

/-- `DebugSessionManager.onScriptLoaded` (line 483): a WebAssembly
script is fetched, decoded (`read_dwarf`, external — its result is the
`container` parameter bundling the debug-info queries) and registered
under the event's script id. -/
def onScriptLoaded (m : DebugSessionManager) (e : ScriptParsedEvent)
    (container : Location → Option SourceLocation)
    (containerAddr : String → JsNum → Option Nat)
    (containerVars : Nat → Option (List Variable))
    (containerInfo : String → WebAssemblyDebugState → Nat → Option WasmVariableInfo) :
    DebugSessionManager :=
  if e.scriptLanguage == "WebAssembly" then
    let wasm : WebAssemblyFile :=
      { scriptID := e.scriptId
        findFileFromLocation := container
        findAddressFromFileLocation := containerAddr
        variable_name_list := containerVars
        get_variable_info := containerInfo }
    { m with session := m.session.loadedWebAssembly wasm }
  else m

end DebugSessionManager

/-- Observation helper: the frame list held by a session state (empty
for `Running`). -/
def SessionState.frames : SessionState → List RuntimeStackFrame
  | .normal => []
  | .paused ps => ps.stackFrames

/-! ### Sample data used by counterexamples and witnesses -/

/-- A fresh manager: no modules, no breakpoints, running. -/
def sampleEmptyManager : DebugSessionManager :=
  { session := { sources := [] }, breakPoints := [], sessionState := .normal }

/-- An empty per-frame variable store. -/
def sampleStore : WebAssemblyDebugState :=
  { stackVals := ⟨[]⟩, locals := ⟨[]⟩, globals := ⟨[]⟩ }

/-- A module whose debug info resolves every location of script `"s"`
to `main.c` line `0` — a representable dwarf answer whose zero line is
falsy in JavaScript. -/
def c3Module : WebAssemblyFile :=
  { scriptID := "s"
    findFileFromLocation := fun loc =>
      if loc.scriptId = "s" then some { file := "main.c", line := 0 } else none
    findAddressFromFileLocation := fun _ _ => none
    variable_name_list := fun _ => none
    get_variable_info := fun _ _ _ => none }

/-- A manager owning `c3Module`, running. -/
def c3Manager : DebugSessionManager :=
  { session := { sources := [c3Module] }, breakPoints := [], sessionState := .normal }

/-- One pause notification with a single call frame on script `"s"`,
protocol line 7. -/
def c3Event : DebugSessionManager.PausedEvent :=
  { callFrames := [{ callFrameId := "cf0", functionName := "f",
                     location := { scriptId := "s", lineNumber := 7, columnNumber := 42 },
                     url := "wasm-url" }] }

/-- A module resolving script `"s"` to `main.c` line `5` (truthy). -/
def c3GoodModule : WebAssemblyFile :=
  { scriptID := "s"
    findFileFromLocation := fun loc =>
      if loc.scriptId = "s" then some { file := "main.c", line := 5 } else none
    findAddressFromFileLocation := fun _ _ => none
    variable_name_list := fun _ => none
    get_variable_info := fun _ _ _ => none }

/-- A manager owning `c3GoodModule`, running. -/
def c3GoodManager : DebugSessionManager :=
  { session := { sources := [c3GoodModule] }, breakPoints := [], sessionState := .normal }

/-- One protocol call frame used by the paused-session samples. -/
def c2Frame : CallFrame :=
  { callFrameId := "cf0", functionName := "f",
    location := { scriptId := "s", lineNumber := 7, columnNumber := 42 }, url := "wasm-url" }

/-- The cached runtime stack frame for `c2Frame`. -/
def c2StackFrame : RuntimeStackFrame :=
  { frame := c2Frame
    stack := { index := 0, name := "f", instruction := 42, file := "main.c", line := 5 }
    state := none }

/-- A manager paused on a one-frame stack, owning one module. -/
def c2Manager : DebugSessionManager :=
  { session := { sources := [c3GoodModule] }, breakPoints := []
    sessionState := .paused { stackFrames := [c2StackFrame], selectedFrameIndex := 0 } }

/-- A module carrying a mutually inverse mapping pair: byte address 16
of script `"s"` ↔ `main.c` line 5. -/
def c7Module : WebAssemblyFile :=
  { scriptID := "s"
    findFileFromLocation := fun loc =>
      if loc.scriptId = "s" ∧ loc.columnNumber = 16 then
        some { file := "main.c", line := 5 }
      else none
    findAddressFromFileLocation := fun f l =>
      if f = "main.c" ∧ l = JsNum.num 5 then some 16 else none
    variable_name_list := fun _ => none
    get_variable_info := fun _ _ _ => none }

/-- A registry holding exactly `c7Module`. -/
def c7Session : DebugSession := { sources := [c7Module] }

/-- A module resolving variable `"x"` at instruction address 42 to a
4-byte value at memory address 100 that prints as `"42"`. -/
def c9Module : WebAssemblyFile :=
  { scriptID := "s"
    findFileFromLocation := fun _ => none
    findAddressFromFileLocation := fun _ _ => none
    variable_name_list := fun _ => none
    get_variable_info := fun e _ a =>
      if e = "x" ∧ a = 42 then
        some { address := 100, byte_size := 4, print := fun _ => "42" }
      else none }

/-- A two-frame paused state focused on the *second* frame (index 1),
both frames carrying pre-built variable stores. -/
def c9Paused : PausedState :=
  { stackFrames :=
      [{ frame := c2Frame
         stack := { index := 0, name := "f", instruction := 42, file := "main.c", line := 5 }
         state := some sampleStore },
       { frame := { callFrameId := "cf1", functionName := "g",
                    location := { scriptId := "s", lineNumber := 9, columnNumber := 42 },
                    url := "wasm-url" }
         stack := { index := 1, name := "g", instruction := 42, file := "main.c", line := 9 }
         state := some sampleStore }]
    selectedFrameIndex := 1 }

/-! ### Helper lemmas on the JavaScript primitives -/

theorem splitCharList_ne_nil (sep : Char) (l : List Char) : splitCharList sep l ≠ [] := by
  induction l with
  | nil => simp [splitCharList]
  | cons c rest ih =>
    simp only [splitCharList]
    split
    · simp
    · cases h : splitCharList sep rest with
      | nil => exact absurd h ih
      | cons g gs => simp [h]

theorem splitCharList_of_not_mem (sep : Char) (l : List Char) (h : sep ∉ l) :
    splitCharList sep l = [l] := by
  induction l with
  | nil => rfl
  | cons c rest ih =>
    have hc : ¬(c = sep) := fun e => h (e ▸ List.mem_cons_self c rest)
    have hr : sep ∉ rest := fun e => h (List.mem_cons_of_mem c e)
    simp [splitCharList, if_neg hc, ih hr]

theorem one_le_length_splitCharList (sep : Char) (l : List Char) :
    1 ≤ (splitCharList sep l).length := by
  cases h : splitCharList sep l with
  | nil => exact absurd h (splitCharList_ne_nil sep l)
  | cons g gs => simp

theorem two_le_length_splitCharList (sep : Char) (l : List Char) (h : sep ∈ l) :
    2 ≤ (splitCharList sep l).length := by
  induction l with
  | nil => cases h
  | cons c rest ih =>
    simp only [splitCharList]
    by_cases hc : c = sep
    · rw [if_pos hc]
      have h1 := one_le_length_splitCharList sep rest
      simp only [List.length_cons]
      omega
    · rw [if_neg hc]
      have hr : sep ∈ rest := by
        rcases List.mem_cons.mp h with e | e
        · exact absurd e.symm hc
        · exact e
      have h2 := ih hr
      cases hsp : splitCharList sep rest with
      | nil => exact absurd hsp (splitCharList_ne_nil sep rest)
      | cons g gs =>
        rw [hsp] at h2
        simp only [List.length_cons] at h2 ⊢
        omega

theorem jsSplit_of_not_mem (sep : Char) (s : String) (h : sep ∉ s.data) :
    jsSplit sep s = [s] := by
  unfold jsSplit
  rw [splitCharList_of_not_mem sep s.data h]
  cases s
  rfl

theorem jsSplit_shape (sep : Char) (s : String) (h : sep ∈ s.data) :
    ∃ a b rest, jsSplit sep s = a :: b :: rest := by
  have h2 : 2 ≤ (jsSplit sep s).length := by
    unfold jsSplit
    rw [List.length_map]
    exact two_le_length_splitCharList sep s.data h
  cases hs : jsSplit sep s with
  | nil => rw [hs] at h2; simp at h2
  | cons a t =>
    cases t with
    | nil => rw [hs] at h2; simp at h2
    | cons b rest => exact ⟨a, b, rest, rfl⟩

theorem foldl_jsMax2_num (l : List JsNum) :
    ∀ a : Int, (∀ x ∈ l, ∃ n, x = JsNum.num n) →
      ∃ M, l.foldl jsMax2 (JsNum.num a) = JsNum.num M ∧ a ≤ M ∧
        ∀ n : Int, JsNum.num n ∈ l → n ≤ M := by
  induction l with
  | nil => exact fun a _ => ⟨a, rfl, le_refl a, by simp⟩
  | cons x rest ih =>
    intro a hfin
    obtain ⟨n0, rfl⟩ := hfin x (List.mem_cons_self x rest)
    have hfin' : ∀ y ∈ rest, ∃ n, y = JsNum.num n :=
      fun y hy => hfin y (List.mem_cons_of_mem _ hy)
    obtain ⟨M, hM, haM, hall⟩ := ih (max a n0) hfin'
    refine ⟨M, ?_, ?_, ?_⟩
    · simpa [jsMax2] using hM
    · exact le_trans (le_max_left a n0) haM
    · intro n hn
      rcases List.mem_cons.mp hn with e | e
      · have : n = n0 := by injection e
        subst this
        exact le_trans (le_max_right a n) haM
      · exact hall n e

theorem jsMaxList_num (l : List JsNum) (hne : l ≠ [])
    (hfin : ∀ x ∈ l, ∃ n, x = JsNum.num n) :
    ∃ M, jsMaxList l = JsNum.num M ∧ ∀ n : Int, JsNum.num n ∈ l → n ≤ M := by
  cases l with
  | nil => exact absurd rfl hne
  | cons x rest =>
    obtain ⟨n0, rfl⟩ := hfin x (List.mem_cons_self x rest)
    have hfin' : ∀ y ∈ rest, ∃ n, y = JsNum.num n :=
      fun y hy => hfin y (List.mem_cons_of_mem _ hy)
    obtain ⟨M, hM, _, hall⟩ := foldl_jsMax2_num rest n0 hfin'
    refine ⟨M, ?_, ?_⟩
    · unfold jsMaxList
      simpa [jsMax2] using hM
    · intro n hn
      rcases List.mem_cons.mp hn with e | e
      · have hn0 : n = n0 := by injection e
        subst hn0
        obtain ⟨M2, hM2, hle, _⟩ := foldl_jsMax2_num rest n hfin'
        have hMM : JsNum.num M2 = JsNum.num M := by rw [← hM2, hM]
        have : M2 = M := by injection hMM
        omega
      · exact hall n e

/-! ### Claims about the breakpoint registry -/

/-- Claim C1: the code evaluated at the failing input.  On an empty
breakpoint registry `setBreakPoint` allocates the id `-Infinity`
(JavaScript `Math.max.apply(null, [])` is `-Infinity`, and
`-Infinity + 1` is `-Infinity`), not `1`; the registry record carries
the same id, and a second call with no removal in between again
allocates `-Infinity`, so the allocated ids are not strictly increasing
either. -/
theorem c1_empty_registry_allocates_negInf :
    (sampleEmptyManager.setBreakPoint "main.c:5" "raw0").1.id = some JsNum.negInf ∧
    ((sampleEmptyManager.setBreakPoint "main.c:5" "raw0").2.1.breakPoints.map
      (fun b => b.id)) = [JsNum.negInf] ∧
    ((sampleEmptyManager.setBreakPoint "main.c:5" "raw0").2.1.setBreakPoint
      "main.c:6" "raw1").1.id = some JsNum.negInf ∧
    JsNum.negInf ≠ JsNum.num 1 := by decide

/-- Claim C5: for every location string containing no `:`,
`setBreakPoint` returns `verified=false` with no id, produces no effect
(in particular no gateway request), and leaves the manager — breakpoint
registry included — unchanged. -/
theorem c5_malformed_location_is_inert (m : DebugSessionManager)
    (location raw : String) (h : ':' ∉ location.data) :
    m.setBreakPoint location raw =
      ({ id := none, line := none, column := none, verified := false }, m, []) := by
  unfold DebugSessionManager.setBreakPoint
  rw [jsSplit_of_not_mem ':' location h]

theorem c5_witness :
    sampleEmptyManager.setBreakPoint "nocolon" "raw0" =
      ({ id := none, line := none, column := none, verified := false },
       sampleEmptyManager, []) :=
  c5_malformed_location_is_inert sampleEmptyManager "nocolon" "raw0" (by decide)

/-- Claim C10: every location containing at least one `:` allocates an
id (`Math.max` of the registry ids plus one) and appends a registry
record, and the result is `verified=true` — for every manager, so in
particular whether or not any module resolves the location; a
non-numeric, non-empty line portion is stored and returned as `NaN`. -/
theorem c10_colon_location_always_verified (m : DebugSessionManager)
    (location raw : String) (h : ':' ∈ location.data) :
    ∃ fileStr lineStr rest, jsSplit ':' location = fileStr :: lineStr :: rest ∧
      (m.setBreakPoint location raw).1.verified = true ∧
      (m.setBreakPoint location raw).1.id =
        some ((jsMaxList (m.breakPoints.map (fun x => x.id))).addOne) ∧
      (m.setBreakPoint location raw).1.line = some (jsNumber lineStr) ∧
      (m.setBreakPoint location raw).2.1.breakPoints =
        m.breakPoints ++
          [{ id := (jsMaxList (m.breakPoints.map (fun x => x.id))).addOne,
             rawId := raw, file := fileStr, line := jsNumber lineStr }] ∧
      (lineStr ≠ "" → lineStr.toInt? = none → jsNumber lineStr = JsNum.nan) := by
  obtain ⟨a, b, rest, hs⟩ := jsSplit_shape ':' location h
  refine ⟨a, b, rest, hs, ?_⟩
  unfold DebugSessionManager.setBreakPoint
  rw [hs]
  refine ⟨rfl, rfl, rfl, rfl, ?_⟩
  intro h1 h2
  unfold jsNumber
  rw [if_neg h1, h2]

theorem c10_witness :
    ∃ fileStr lineStr rest, jsSplit ':' "a:b" = fileStr :: lineStr :: rest ∧
      (sampleEmptyManager.setBreakPoint "a:b" "raw0").1.verified = true ∧
      (sampleEmptyManager.setBreakPoint "a:b" "raw0").1.id =
        some ((jsMaxList (sampleEmptyManager.breakPoints.map (fun x => x.id))).addOne) ∧
      (sampleEmptyManager.setBreakPoint "a:b" "raw0").1.line = some (jsNumber lineStr) ∧
      (sampleEmptyManager.setBreakPoint "a:b" "raw0").2.1.breakPoints =
        sampleEmptyManager.breakPoints ++
          [{ id := (jsMaxList (sampleEmptyManager.breakPoints.map (fun x => x.id))).addOne,
             rawId := "raw0", file := fileStr, line := jsNumber lineStr }] ∧
      (lineStr ≠ "" → lineStr.toInt? = none → jsNumber lineStr = JsNum.nan) :=
  c10_colon_location_always_verified sampleEmptyManager "a:b" "raw0" (by decide)

/-- Claim C6: after `removeBreakPoint id` the registry holds no record
whose id JS-equals `id`, and the effect list is exactly one gateway
removal per removed record, in registry order and carrying that
record's protocol id (so their count matches).  The local update never
consults the gateway responses, so a failed removal cannot roll it
back. -/
theorem c6_remove_breakpoint (m : DebugSessionManager) (id : JsNum) :
    ((m.removeBreakPoint id).1.breakPoints.filter (fun x => jsEq x.id id) = []) ∧
    ((m.removeBreakPoint id).2 =
      (m.breakPoints.filter (fun x => jsEq x.id id)).map
        (fun x => Effect.gwRemoveBreakpoint x.rawId)) ∧
    ((m.removeBreakPoint id).2.length =
      (m.breakPoints.filter (fun x => jsEq x.id id)).length) := by
  refine ⟨?_, rfl, by simp [DebugSessionManager.removeBreakPoint]⟩
  rw [List.filter_eq_nil_iff]
  intro a ha
  simp only [DebugSessionManager.removeBreakPoint] at ha
  have h2 := (List.mem_filter.mp ha).2
  simp only [Bool.not_eq_true'] at h2
  simp [h2]

/-! ### Claims about the session state machine -/

/-- Claim C4: while the session is Running, every workflow command and
every dump command prints the "not paused" warning, returns its empty
or undefined sentinel (empty list for `getStackFrames` and
`listVariable`, `undefined` for `dumpVariable`), leaves the manager
unchanged, never faults, and issues zero gateway requests — the only
effect is the console warning, which is not a gateway request. -/
theorem c4_running_mode_sentinels (m : DebugSessionManager)
    (h : m.sessionState = SessionState.normal) (i : Nat) (expr : String)
    (buildStore : CallFrame → WebAssemblyDebugState × List Effect) (memResp : List Nat) :
    m.stepOver = (m, [notPausedWarning]) ∧
    m.stepIn = (m, [notPausedWarning]) ∧
    m.stepOut = (m, [notPausedWarning]) ∧
    m.continueCmd = (m, [notPausedWarning]) ∧
    m.getStackFrames = ([], [notPausedWarning]) ∧
    m.setFocusedFrame i = (m, [notPausedWarning]) ∧
    m.showLine = .ok [notPausedWarning] ∧
    m.listVariable = .ok ([], [notPausedWarning]) ∧
    m.dumpVariable expr buildStore memResp = .ok (none, m, [notPausedWarning]) ∧
    notPausedWarning.isGateway = false := by
  obtain ⟨sess, bps, st⟩ := m
  cases st with
  | paused ps => exact absurd h (by simp)
  | normal => exact ⟨rfl, rfl, rfl, rfl, rfl, rfl, rfl, rfl, rfl, rfl⟩

theorem c4_witness :
    sampleEmptyManager.stepOver = (sampleEmptyManager, [notPausedWarning]) ∧
    sampleEmptyManager.stepIn = (sampleEmptyManager, [notPausedWarning]) ∧
    sampleEmptyManager.stepOut = (sampleEmptyManager, [notPausedWarning]) ∧
    sampleEmptyManager.continueCmd = (sampleEmptyManager, [notPausedWarning]) ∧
    sampleEmptyManager.getStackFrames = ([], [notPausedWarning]) ∧
    sampleEmptyManager.setFocusedFrame 0 = (sampleEmptyManager, [notPausedWarning]) ∧
    sampleEmptyManager.showLine = .ok [notPausedWarning] ∧
    sampleEmptyManager.listVariable = .ok ([], [notPausedWarning]) ∧
    sampleEmptyManager.dumpVariable "x"
        (fun _ => ({ stackVals := ⟨[]⟩, locals := ⟨[]⟩, globals := ⟨[]⟩ }, [])) [] =
      .ok (none, sampleEmptyManager, [notPausedWarning]) ∧
    notPausedWarning.isGateway = false :=
  c4_running_mode_sentinels sampleEmptyManager rfl 0 "x"
    (fun _ => ({ stackVals := ⟨[]⟩, locals := ⟨[]⟩, globals := ⟨[]⟩ }, [])) []

/-- Claim C8: `stepIn` aliases `stepOver`.  The manager-level command
functions are equal (the manager's `stepIn` even dispatches to the
state's `stepOver`), the paused-state methods are equal, the
running-state methods are equal, in Paused mode both issue exactly the
gateway step-over request, and in no session state does `stepIn` emit a
gateway step-into request. -/
theorem c8_stepIn_aliases_stepOver :
    DebugSessionManager.stepIn = DebugSessionManager.stepOver ∧
    PausedState.stepIn = PausedState.stepOver ∧
    NormalSessionState.stepIn = NormalSessionState.stepOver ∧
    (∀ ps : PausedState, ps.stepIn.2 = [Effect.gwStepOver] ∧
      ps.stepOver.2 = [Effect.gwStepOver]) ∧
    (∀ m : DebugSessionManager, m.stepIn.2.contains Effect.gwStepInto = false) := by
  refine ⟨rfl, rfl, rfl, fun ps => ⟨rfl, rfl⟩, ?_⟩
  intro m
  obtain ⟨sess, bps, st⟩ := m
  cases st with
  | normal => rfl
  | paused ps => rfl

theorem buildStackFrames_length (sess : DebugSession) (cfs : List CallFrame) :
    ∀ i : Nat, (DebugSessionManager.buildStackFrames sess i cfs).length = cfs.length := by
  induction cfs with
  | nil => intro i; rfl
  | cons v rest ih =>
    intro i
    simp [DebugSessionManager.buildStackFrames, ih]

theorem buildStackFrames_getElem (sess : DebugSession) (cfs : List CallFrame) :
    ∀ (i k : Nat) (h : k < cfs.length)
      (h' : k < (DebugSessionManager.buildStackFrames sess i cfs).length),
      (DebugSessionManager.buildStackFrames sess i cfs)[k] =
        DebugSessionManager.mkStackFrame sess (i + k) cfs[k] := by
  induction cfs with
  | nil =>
    intro i k h h'
    exact absurd h (by simp)
  | cons v rest ih =>
    intro i k h h'
    cases k with
    | zero => simp [DebugSessionManager.buildStackFrames]
    | succ k' =>
      have hr : k' < rest.length := by simpa using h
      have hr' : k' < (DebugSessionManager.buildStackFrames sess (i + 1) rest).length := by
        rw [buildStackFrames_length sess rest (i + 1)]
        exact hr
      simp only [DebugSessionManager.buildStackFrames, List.getElem_cons_succ]
      rw [ih (i + 1) k' hr hr']
      congr 1
      omega

/-- Claim C3 counterexample: in `c3Manager` the owning module's mapping
*resolves* the paused frame's location — to `main.c` line `0` — yet the
built entry's line is the protocol line `7`, not the mapping's `0`: the
`||` fallback triggers on a resolved falsy value, so "file and line
come from the mapping when it resolves" is false as stated. -/
theorem c3_counterexample :
    c3Manager.session.findFileFromLocation
        { scriptId := "s", lineNumber := 7, columnNumber := 42 } =
      some { file := "main.c", line := 0 } ∧
    ((c3Manager.onPaused c3Event).1.sessionState.frames.map
      (fun f => f.stack.line)) = [7] ∧
    (7 : Nat) ≠ 0 := by decide

/-- Claim C3 as amended: a pause notification with N call frames builds
exactly N `StackFrame` entries in frame order (entry k holds protocol
frame k, index k, the frame's function name and instruction address);
the entry's `file` and `line` come from the owning module's mapping
when it resolves *and* the resolved field is JavaScript-truthy
(non-empty file, non-zero line), and fall back field-wise to the
frame's raw script URL and protocol line number otherwise; the active
mode becomes `Paused` holding this list with focused index 0, and the
event sink receives the stopped signal. -/
theorem c3_pause_builds_frames (m : DebugSessionManager)
    (e : DebugSessionManager.PausedEvent) (k : Nat) (h : k < e.callFrames.length) :
    ∃ ps : PausedState, (m.onPaused e).1.sessionState = SessionState.paused ps ∧
      ps.selectedFrameIndex = 0 ∧
      ps.stackFrames.length = e.callFrames.length ∧
      (m.onPaused e).2 =
        [Effect.consoleLog "Hit BreakPointMapping",
         Effect.sendStoppedEvent "BreakPointMapping" 1] ∧
      ∃ hk : k < ps.stackFrames.length,
        ps.stackFrames[k].frame = e.callFrames[k] ∧
        ps.stackFrames[k].stack.index = k ∧
        ps.stackFrames[k].stack.name = e.callFrames[k].functionName ∧
        ps.stackFrames[k].stack.instruction = e.callFrames[k].location.columnNumber ∧
        ps.stackFrames[k].state = none ∧
        (∀ dl : SourceLocation,
          m.session.findFileFromLocation e.callFrames[k].location = some dl →
            (dl.file ≠ "" → ps.stackFrames[k].stack.file = dl.file) ∧
            (dl.file = "" → ps.stackFrames[k].stack.file = e.callFrames[k].url) ∧
            (dl.line ≠ 0 → ps.stackFrames[k].stack.line = dl.line) ∧
            (dl.line = 0 →
              ps.stackFrames[k].stack.line = e.callFrames[k].location.lineNumber)) ∧
        (m.session.findFileFromLocation e.callFrames[k].location = none →
          ps.stackFrames[k].stack.file = e.callFrames[k].url ∧
          ps.stackFrames[k].stack.line = e.callFrames[k].location.lineNumber) := by
  refine ⟨_, rfl, rfl, buildStackFrames_length m.session e.callFrames 0, rfl, ?_⟩
  have hk : k < (DebugSessionManager.buildStackFrames m.session 0 e.callFrames).length := by
    rw [buildStackFrames_length m.session e.callFrames 0]
    exact h
  refine ⟨hk, ?_⟩
  rw [buildStackFrames_getElem m.session e.callFrames 0 k h hk]
  simp only [Nat.zero_add]
  refine ⟨rfl, rfl, rfl, rfl, rfl, ?_, ?_⟩
  · intro dl hdl
    refine ⟨?_, ?_, ?_, ?_⟩ <;> intro hcond <;>
      simp [DebugSessionManager.mkStackFrame, hdl, hcond]
  · intro hnone
    constructor <;> simp [DebugSessionManager.mkStackFrame, hnone]

theorem c3_witness :
    ∃ ps : PausedState,
      (c3GoodManager.onPaused c3Event).1.sessionState = SessionState.paused ps ∧
      ps.selectedFrameIndex = 0 ∧
      ps.stackFrames.length = c3Event.callFrames.length ∧
      (c3GoodManager.onPaused c3Event).2 =
        [Effect.consoleLog "Hit BreakPointMapping",
         Effect.sendStoppedEvent "BreakPointMapping" 1] ∧
      ∃ hk : 0 < ps.stackFrames.length,
        ps.stackFrames[0].frame = c3Event.callFrames[0] ∧
        ps.stackFrames[0].stack.index = 0 ∧
        ps.stackFrames[0].stack.name = c3Event.callFrames[0].functionName ∧
        ps.stackFrames[0].stack.instruction = c3Event.callFrames[0].location.columnNumber ∧
        ps.stackFrames[0].state = none ∧
        (∀ dl : SourceLocation,
          c3GoodManager.session.findFileFromLocation c3Event.callFrames[0].location =
              some dl →
            (dl.file ≠ "" → ps.stackFrames[0].stack.file = dl.file) ∧
            (dl.file = "" → ps.stackFrames[0].stack.file = c3Event.callFrames[0].url) ∧
            (dl.line ≠ 0 → ps.stackFrames[0].stack.line = dl.line) ∧
            (dl.line = 0 →
              ps.stackFrames[0].stack.line = c3Event.callFrames[0].location.lineNumber)) ∧
        (c3GoodManager.session.findFileFromLocation c3Event.callFrames[0].location = none →
          ps.stackFrames[0].stack.file = c3Event.callFrames[0].url ∧
          ps.stackFrames[0].stack.line = c3Event.callFrames[0].location.lineNumber) :=
  c3_pause_builds_frames c3GoodManager c3Event 0 (by decide)

/-- Claim C2 counterexample: after a page navigation while paused in
`c2Manager`, the mode is unchanged — still `Paused` with its one-frame
in-memory stack, which is therefore *not* cleared — and the subsequent
`listVariable` returns the empty list through the Paused-mode
`not available.` branch, not through the Running-mode "not paused"
warning. -/
theorem c2_counterexample :
    c2Manager.onLoad.1.sessionState = c2Manager.sessionState ∧
    c2Manager.onLoad.1.sessionState.frames.length = 1 ∧
    c2Manager.onLoad.1.listVariable =
      .ok ([], [Effect.consoleLog "not available."]) ∧
    Effect.consoleLog "not available." ≠ notPausedWarning := by decide

/-- Claim C2 as amended: page navigation while Paused clears the module
list but neither the mode nor the in-memory stack; a subsequent
`listVariable` issued before a new pause event (the focused index
being within the stack) returns the empty list via the Paused-mode
"not available" path — the module lookup fails on the now-empty
registry — and not via the Running-mode sentinel. -/
theorem c2_navigation_keeps_paused_stack (m : DebugSessionManager) (ps : PausedState)
    (hs : m.sessionState = SessionState.paused ps)
    (hidx : ps.selectedFrameIndex < ps.stackFrames.length) :
    m.onLoad.1.session.sources = [] ∧
    m.onLoad.1.sessionState = SessionState.paused ps ∧
    m.onLoad.2 = [Effect.consoleLog "Page navigated."] ∧
    m.onLoad.1.listVariable = .ok ([], [Effect.consoleLog "not available."]) := by
  obtain ⟨f, hf⟩ : ∃ f, ps.stackFrames[ps.selectedFrameIndex]? = some f :=
    ⟨_, List.getElem?_eq_getElem hidx⟩
  refine ⟨rfl, hs, rfl, ?_⟩
  simp only [DebugSessionManager.onLoad, DebugSessionManager.listVariable, hs]
  simp [PausedState.listVariable, hf, DebugSession.getVariablelistFromAddress,
    DebugSession.reset]

theorem c2_witness :
    c2Manager.onLoad.1.session.sources = [] ∧
    c2Manager.onLoad.1.sessionState =
      SessionState.paused { stackFrames := [c2StackFrame], selectedFrameIndex := 0 } ∧
    c2Manager.onLoad.2 = [Effect.consoleLog "Page navigated."] ∧
    c2Manager.onLoad.1.listVariable = .ok ([], [Effect.consoleLog "not available."]) :=
  c2_navigation_keeps_paused_stack c2Manager
    { stackFrames := [c2StackFrame], selectedFrameIndex := 0 } rfl (by decide)

/-! ### Claim about the module-registry round trip -/

theorem exists_of_findSome?_eq_some {α β : Type _} {f : α → Option β} {l : List α} {b : β}
    (h : l.findSome? f = some b) : ∃ a, a ∈ l ∧ f a = some b := by
  obtain ⟨l₁, a, l₂, hl, hfa, _⟩ := List.findSome?_eq_some_iff.mp h
  refine ⟨a, ?_, hfa⟩
  rw [hl]
  simp

theorem filter_scriptID_eq_singleton (x : WebAssemblyFile) :
    ∀ l : List WebAssemblyFile, x ∈ l → (l.map (fun y => y.scriptID)).Nodup →
      l.filter (fun y => y.scriptID == x.scriptID) = [x] := by
  intro l
  induction l with
  | nil => intro hx; cases hx
  | cons y ys ih =>
    intro hx huniq
    rw [List.map_cons, List.nodup_cons] at huniq
    obtain ⟨hnotin, hnd⟩ := huniq
    rcases List.mem_cons.mp hx with rfl | hx'
    · have hys : ys.filter (fun z => z.scriptID == x.scriptID) = [] := by
        rw [List.filter_eq_nil_iff]
        intro a ha
        simp only [beq_iff_eq]
        intro e
        exact hnotin (by rw [← e]; exact List.mem_map_of_mem (fun z => z.scriptID) ha)
      simp [List.filter_cons, hys]
    · have hy : (y.scriptID == x.scriptID) = false := by
        simp only [beq_eq_false_iff_ne]
        intro e
        exact hnotin (by rw [e]; exact List.mem_map_of_mem (fun z => z.scriptID) hx')
      simp only [List.filter_cons, hy]
      simp only [Bool.false_eq_true, if_false]
      exact ih hx' hnd

theorem findSome?_isSome_of_mem {α β : Type _} {f : α → Option β} {l : List α} {y : α}
    {b : β} (hy : y ∈ l) (hfy : f y = some b) : ∃ c, l.findSome? f = some c := by
  induction l with
  | nil => cases hy
  | cons z zs ih =>
    rw [List.findSome?_cons]
    cases hz : f z with
    | some c => exact ⟨c, rfl⟩
    | none =>
      rcases List.mem_cons.mp hy with rfl | hy'
      · rw [hz] at hfy
        cases hfy
      · simpa using ih hy'

/-- Claim C7: module-registry round trip.  For a well-formed registry
(pairwise distinct script ids) whose modules' address↔location queries
are mutually inverse — `hinv` is the address→location direction,
`hinv2` the location→address direction: when module `x` maps location
`loc` of its own script to `(file, line)`, the session-level lookup on
`loc` returns exactly `(file, line)`; the session-level
`findAddressFromFileLocation (file, line)` *does* return a protocol
address, and resolving it back through the session-level lookup yields
`(file, line)` again; moreover any address it returns resolves back the
same way. -/
theorem c7_module_registry_roundtrip (s : DebugSession) (x : WebAssemblyFile)
    (hx : x ∈ s.sources)
    (huniq : (s.sources.map (fun y => y.scriptID)).Nodup)
    (hinv : ∀ y ∈ s.sources, ∀ (f : String) (l a : Nat),
      y.findAddressFromFileLocation f (JsNum.num l) = some a →
      y.findFileFromLocation
          { scriptId := y.scriptID, lineNumber := 0, columnNumber := a } =
        some { file := f, line := l })
    (hinv2 : ∀ y ∈ s.sources, ∀ (loc : Location) (f : String) (l : Nat),
      y.findFileFromLocation loc = some { file := f, line := l } →
      ∃ a : Nat, y.findAddressFromFileLocation f (JsNum.num l) = some a)
    (loc : Location) (file : String) (line : Nat)
    (hloc : loc.scriptId = x.scriptID)
    (hmap : x.findFileFromLocation loc = some { file := file, line := line }) :
    s.findFileFromLocation loc = some { file := file, line := line } ∧
    (∃ wl : WasmLocation,
      s.findAddressFromFileLocation file (JsNum.num line) = some wl ∧
      s.findFileFromLocation
          { scriptId := wl.scriptId, lineNumber := wl.line, columnNumber := wl.column } =
        some { file := file, line := line }) ∧
    ∀ wl : WasmLocation,
      s.findAddressFromFileLocation file (JsNum.num line) = some wl →
      s.findFileFromLocation
          { scriptId := wl.scriptId, lineNumber := wl.line, columnNumber := wl.column } =
        some { file := file, line := line } := by
  have hcond : ∀ wl : WasmLocation,
      s.findAddressFromFileLocation file (JsNum.num line) = some wl →
      s.findFileFromLocation
          { scriptId := wl.scriptId, lineNumber := wl.line, columnNumber := wl.column } =
        some { file := file, line := line } := by
    intro wl hwl
    unfold DebugSession.findAddressFromFileLocation at hwl
    obtain ⟨y, hy, hres⟩ := exists_of_findSome?_eq_some hwl
    obtain ⟨a, ha, hwl'⟩ := Option.map_eq_some'.mp hres
    subst hwl'
    show s.findFileFromLocation
        { scriptId := y.scriptID, lineNumber := 0, columnNumber := a } =
      some { file := file, line := line }
    unfold DebugSession.findFileFromLocation
    rw [show ({ scriptId := y.scriptID, lineNumber := 0, columnNumber := a } :
        Location).scriptId = y.scriptID from rfl,
      filter_scriptID_eq_singleton y s.sources hy huniq]
    exact hinv y hy file line a ha
  refine ⟨?_, ?_, hcond⟩
  · unfold DebugSession.findFileFromLocation
    rw [hloc, filter_scriptID_eq_singleton x s.sources hx huniq]
    exact hmap
  · obtain ⟨a, ha⟩ := hinv2 x hx loc file line hmap
    obtain ⟨wl, hwl⟩ : ∃ wl : WasmLocation,
        s.findAddressFromFileLocation file (JsNum.num line) = some wl := by
      unfold DebugSession.findAddressFromFileLocation
      exact findSome?_isSome_of_mem hx (by rw [ha]; rfl)
    exact ⟨wl, hwl, hcond wl hwl⟩

theorem c7_witness :
    c7Session.findFileFromLocation
        { scriptId := "s", lineNumber := 0, columnNumber := 16 } =
      some { file := "main.c", line := 5 } ∧
    (∃ wl : WasmLocation,
      c7Session.findAddressFromFileLocation "main.c" (JsNum.num 5) = some wl ∧
      c7Session.findFileFromLocation
          { scriptId := wl.scriptId, lineNumber := wl.line, columnNumber := wl.column } =
        some { file := "main.c", line := 5 }) ∧
    ∀ wl : WasmLocation,
      c7Session.findAddressFromFileLocation "main.c" (JsNum.num 5) = some wl →
      c7Session.findFileFromLocation
          { scriptId := wl.scriptId, lineNumber := wl.line, columnNumber := wl.column } =
        some { file := "main.c", line := 5 } :=
  c7_module_registry_roundtrip c7Session c7Module (List.mem_singleton.mpr rfl)
    (by decide)
    (by
      intro y hy f l a hres
      simp only [c7Session] at hy
      rw [List.mem_singleton] at hy
      subst hy
      simp only [c7Module] at hres ⊢
      by_cases hc : f = "main.c" ∧ JsNum.num (l : Int) = JsNum.num 5
      · obtain ⟨hf, hl⟩ := hc
        have hli : (l : Int) = 5 := by injection hl
        have hl5 : l = 5 := by omega
        subst hf
        subst hl5
        simp at hres
        subst hres
        simp
      · rw [if_neg hc] at hres
        cases hres)
    (by
      intro y hy loc f l hres
      simp only [c7Session] at hy
      rw [List.mem_singleton] at hy
      subst hy
      simp only [c7Module] at hres ⊢
      by_cases hc : loc.scriptId = "s" ∧ loc.columnNumber = 16
      · rw [if_pos hc] at hres
        injection hres with h1
        simp only [SourceLocation.mk.injEq] at h1
        obtain ⟨hf, hl⟩ := h1
        subst hf
        subst hl
        exact ⟨16, by decide⟩
      · rw [if_neg hc] at hres
        cases hres)
    { scriptId := "s", lineNumber := 0, columnNumber := 16 } "main.c" 5 rfl (by decide)

/-! ### Claim about the variable-dump memory read -/

theorem set_frame_zero_callFrameId (l : List RuntimeStackFrame) (i : Nat)
    (fr f0 : RuntimeStackFrame) (st : Option WebAssemblyDebugState)
    (hfr : l[i]? = some fr)
    (hf0 : (l.set i { fr with state := st })[0]? = some f0) :
    ∃ g0, l[0]? = some g0 ∧ f0.frame = g0.frame := by
  obtain ⟨hlt, hfr'⟩ := List.getElem?_eq_some_iff.mp hfr
  obtain ⟨hlt0, hf0'⟩ := List.getElem?_eq_some_iff.mp hf0
  have hlen : (l.set i { fr with state := st }).length = l.length := List.length_set l i _
  have hlt0' : 0 < l.length := by omega
  refine ⟨l[0], List.getElem?_eq_getElem hlt0', ?_⟩
  rw [← hf0', List.getElem_set]
  by_cases hi : i = 0
  · subst hi
    rw [if_pos rfl]
    show fr.frame = _
    rw [hfr']
  · rw [if_neg hi]

/-- Claim C9: whenever a Paused-mode `dumpVariable` succeeds with a
display string, its guest-memory read — always the last emitted
effect — is an `evaluateOnCallFrame` request carrying the call-frame id
of stack frame 0 (the innermost frame), whatever the focused frame
index is. -/
theorem c9_memory_read_uses_frame_zero (ps : PausedState) (sess : DebugSession)
    (expr : String) (buildStore : CallFrame → WebAssemblyDebugState × List Effect)
    (memResp : List Nat) (str : String) (ps' : PausedState) (effs : List Effect)
    (h : ps.dumpVariable sess expr buildStore memResp = .ok (some str, ps', effs)) :
    ∃ (pre : List Effect) (a sz : Nat) (g0 : RuntimeStackFrame),
      ps.stackFrames[0]? = some g0 ∧
      effs = pre ++ [Effect.gwEvaluateOnCallFrame g0.frame.callFrameId a sz] := by
  unfold PausedState.dumpVariable at h
  split at h
  · simp at h
  · rename_i frame heqf
    split at h
    · rename_i st heqs
      dsimp only at h
      split at h
      · simp at h
      · rename_i vi heqv
        split at h
        · simp at h
        · rename_i f0 tail heql
          simp only [Outcome.ok.injEq, Prod.mk.injEq] at h
          obtain ⟨h1, h2, h3⟩ := h
          refine ⟨[], vi.address, vi.byte_size, f0, ?_, ?_⟩
          · rw [heql]
            exact List.getElem?_cons_zero
          · rw [← h3]
    · rename_i heqs
      dsimp only at h
      split at h
      · simp at h
      · rename_i vi heqv
        split at h
        · simp at h
        · rename_i f0 tail heql
          simp only [Outcome.ok.injEq, Prod.mk.injEq] at h
          obtain ⟨h1, h2, h3⟩ := h
          obtain ⟨g0, hg0, hfr⟩ := set_frame_zero_callFrameId ps.stackFrames
            ps.selectedFrameIndex frame f0 (some (buildStore frame.frame).1) heqf
            (by rw [heql]; exact List.getElem?_cons_zero)
          refine ⟨(buildStore frame.frame).2, vi.address, vi.byte_size, g0, hg0, ?_⟩
          rw [← h3, hfr]

theorem c9_witness :
    ∃ (pre : List Effect) (a sz : Nat) (g0 : RuntimeStackFrame),
      c9Paused.stackFrames[0]? = some g0 ∧
      ([Effect.gwEvaluateOnCallFrame "cf0" 100 4] : List Effect) =
        pre ++ [Effect.gwEvaluateOnCallFrame g0.frame.callFrameId a sz] :=
  c9_memory_read_uses_frame_zero c9Paused { sources := [c9Module] } "x"
    (fun _ => (sampleStore, [])) [1, 2, 3, 4] "42" c9Paused
    [Effect.gwEvaluateOnCallFrame "cf0" 100 4] (by decide)

end CdpBridge
